import Mathlib

/-
Verification of the city-to-time/weather resolution pipeline of the
Weather-Agent repository (src/config.py, src/time_service.py,
src/weather_service.py, app/app.py).

Shallow embedding conventions:
* Python dicts returned by the services become the `LookupResult` structure;
  absent dict keys become `none`.
* Machine-environment effects (the process clock, `ZoneInfo`-based local time,
  the two HTTP endpoints) are passed in explicitly as oracle fields of
  `TimeEnv` / `WeatherEnv`.  Each oracle answers as the one observable HTTP
  request would; the number of live get-time-by-zone GETs actually issued is
  returned alongside the result so that call-count properties are statable.
* Python string primitives used by the code are modelled character-wise:
  `str.lower` as ASCII lowercasing, `str.replace(" ", "")` as removal of all
  space characters, `str.capitalize` as upper-casing the head and
  lower-casing the tail, `strftime("%H:%M")` as two zero-padded fields.
* `requests` exceptions (connection errors, timeouts, `raise_for_status`)
  are one abstract `netError` outcome; response bodies are modelled by the
  fields the code reads, with `none` for a missing key (Python `KeyError`).
  An empty `weather` array in the live weather body is kept distinct because
  indexing it raises `IndexError`, which `get_weather` does not catch.
* Numeric JSON fields are modelled as integers; their decimal rendering in
  reports abstracts Python's `str()` of the value.
* The byte sequence 0xEC 0xA7 0xB8 committed in weather_service.py (where a
  degree sign was evidently intended) is the single code point U+C9F8 and is
  reproduced here as the escape 째.
-/

namespace WeatherAgent

/-- Python `str.lower()` restricted to the ASCII range used by the program. -/
def lower (s : String) : String := String.mk (s.data.map Char.toLower)

/-- Python `str.replace(" ", "")`: every space character is dropped. -/
def stripSpaces (s : String) : String := String.mk (s.data.filter (fun c => c != ' '))

/-- The normalisation `city.lower().replace(" ", "")` applied by both services
(time_service.py line 128, weather_service.py line 83). -/
def normalize (s : String) : String := stripSpaces (lower s)

/-- Python `str.capitalize()`: first character upper-cased, rest lower-cased. -/
def capitalize (s : String) : String :=
  match s.data with
  | [] => ""
  | c :: cs => String.mk (c.toUpper :: cs.map Char.toLower)

/-- One zero-padded `strftime` field (`%H` or `%M`). -/
def pad2 (n : Nat) : String := if n < 10 then "0" ++ toString n else toString n

/-- `strftime("%H:%M")` on a (hour, minute) pair. -/
def hhmm (p : Nat × Nat) : String := pad2 p.1 ++ ":" ++ pad2 p.2

/-- Python truthiness of an optional environment string: `None` and `""` are
falsy, every other string truthy. -/
def truthy : Option String → Bool
  | none => false
  | some s => s != ""

/-- The environment-derived attributes of `Config` (src/config.py lines
14-26) that the verified components read. -/
structure Config where
  GOOGLE_API_KEY : Option String
  GOOGLE_MAPS_PLATFORM_API_KEY : Option String
  OPIK_API_KEY : Option String
  OPIK_WORKSPACE : Option String
  OPENWEATHER_API_KEY : Option String
  TIMEZONEDB_API_KEY : Option String
  deriving DecidableEq

/-- `Config.validate_config` (src/config.py lines 32-49): builds the list of
missing required settings, in declaration order. -/
def Config.validate_config (c : Config) : List String :=
  let missing : List String := []
  let missing := if truthy c.GOOGLE_API_KEY then missing else missing ++ ["GOOGLE_API_KEY"]
  let missing := if truthy c.GOOGLE_MAPS_PLATFORM_API_KEY then missing else missing ++ ["GOOGLE_MAPS_PLATFORM_API_KEY"]
  let missing := if truthy c.OPIK_API_KEY then missing else missing ++ ["OPIK_API_KEY"]
  let missing := if truthy c.OPIK_WORKSPACE then missing else missing ++ ["OPIK_WORKSPACE"]
  missing

/-- `Config.is_production_ready` (src/config.py lines 51-54). -/
def Config.is_production_ready (c : Config) : Bool :=
  c.validate_config.length == 0

/-- `check_configuration` (app/app.py lines 40-45): `none` when nothing is
missing, otherwise the banner text listing the missing settings. -/
def check_configuration (c : Config) : Option String :=
  let missing := c.validate_config
  if missing.isEmpty then none
  else some ("Missing required configuration: " ++ String.intercalate ", " missing
              ++ ". Please check your .env file.")

/-- The `data` sub-dict of a successful live time lookup
(time_service.py lines 86-92). -/
structure TimeLiveData where
  city : String
  timezone : String
  timestamp : Int
  formatted_time : String
  formatted_date : String
  deriving DecidableEq

/-- The `data` sub-dict of a successful fallback time lookup
(time_service.py lines 139-143). -/
structure TimeFallbackData where
  city : String
  timezone : String
  formatted_time : String
  deriving DecidableEq

/-- The `weather_info` dict extracted from a live weather response
(weather_service.py lines 43-52). -/
structure WeatherInfo where
  status : String
  city : String
  country : String
  temperature : Int
  description : String
  humidity : Int
  wind_speed : Int
  pressure : Int
  deriving DecidableEq

/-- The possible shapes of the optional `data` payload of a result. -/
inductive Payload where
  | timeLive (d : TimeLiveData)
  | timeFallback (d : TimeFallbackData)
  | weatherLive (d : WeatherInfo)
  deriving DecidableEq

/-- The `status` key of every result dict. -/
inductive Status where
  | success
  | error
  deriving DecidableEq

/-- The uniform result dict both services return: `status` always present,
`report` / `error_message` / `data` keys present or absent. -/
structure LookupResult where
  status : Status
  report : Option String
  errorMessage : Option String
  data : Option Payload
  deriving DecidableEq

namespace TimeService

/-- `TimeService.FALLBACK_TIMEZONES` (time_service.py lines 17-28). -/
def FALLBACK_TIMEZONES : List (String × String) :=
  [ ("newyork", "America/New_York")
  , ("london", "Europe/London")
  , ("tokyo", "Asia/Tokyo")
  , ("paris", "Europe/Paris")
  , ("sydney", "Australia/Sydney")
  , ("losangeles", "America/Los_Angeles")
  , ("chicago", "America/Chicago")
  , ("mumbai", "Asia/Kolkata")
  , ("beijing", "Asia/Shanghai")
  , ("moscow", "Europe/Moscow") ]

/-- The fields of a geocoding response that lines 51-52 of time_service.py
would read, were one ever produced. -/
structure TzApiResp where
  status : Option String
  zoneName : Option String
  deriving DecidableEq

/-- `TimeService._get_timezone_from_api` (time_service.py lines 105-120): the
body builds a parameter dict but issues no request and returns `None`
unconditionally, so the caller never sees a geocoding result. -/
def _get_timezone_from_api (_city : String) : Option TzApiResp := none

/-- A get-time-by-zone response as observed through the fields the code
reads: a `requests` exception (connection error, timeout, HTTP error status),
or a JSON body with its `status` value and optional `timestamp`. -/
inductive TimeResp where
  | netError
  | body (status : Option String) (timestamp : Option Int)
  deriving DecidableEq

/-- The machine environment of `TimeService`: configuration, the live
get-time-by-zone endpoint keyed by zone name, the process clock
`datetime.now(ZoneInfo(zone))` as an (hour, minute) pair per zone, and
`datetime.fromtimestamp` rendered through `%H:%M` / `%Y-%m-%d`. -/
structure TimeEnv where
  cfg : Config
  byZone : String → TimeResp
  nowInZone : String → Nat × Nat
  localHM : Int → Nat × Nat
  localDate : Int → String

/-- The unknown-city error text of time_service.py lines 60 and 150. -/
def tzUnknownMsg (city : String) : String :=
  "Sorry, I don\x27t have timezone information for \x27" ++ city ++ "\x27."

/-- `TimeService._get_fallback_time` (time_service.py lines 122-151).  The
`ZoneInfo`/`strftime` computation for the ten well-known zones of the table is
assumed not to raise, so the `except Exception` at line 145 is never taken and
the final error return is reached exactly when the city is not in the table. -/
def _get_fallback_time (env : TimeEnv) (city : String) : LookupResult :=
  let city_normalized := normalize city
  match FALLBACK_TIMEZONES.lookup city_normalized with
  | some timezone =>
      let now := env.nowInZone timezone
      { status := .success
      , report := some ("The current time in " ++ city ++ " is " ++ hhmm now ++ ".")
      , errorMessage := none
      , data := some (.timeFallback { city := city, timezone := timezone, formatted_time := hhmm now }) }
  | none =>
      { status := .error, report := none, errorMessage := some (tzUnknownMsg city), data := none }

/-- Lines 63-96 of time_service.py together with the handlers at 98-103: one
GET to the get-time-by-zone endpoint for `zone_name`.  A `requests` exception,
a missing `timestamp` key (`KeyError`) and a non-`OK` status all land in
`_get_fallback_time`.  The second component counts the GETs issued. -/
def fetch_time_by_zone (env : TimeEnv) (city zone_name : String) : LookupResult × Nat :=
  match env.byZone zone_name with
  | .netError => (_get_fallback_time env city, 1)
  | .body st ts =>
      if st == some "OK" then
        match ts with
        | none => (_get_fallback_time env city, 1)
        | some timestamp =>
            let hm := env.localHM timestamp
            ( { status := .success
              , report := some ("The current time in " ++ city ++ " (" ++ zone_name ++ ") is "
                  ++ hhmm hm ++ " on " ++ env.localDate timestamp ++ ".")
              , errorMessage := none
              , data := some (.timeLive
                  { city := city, timezone := zone_name, timestamp := timestamp
                  , formatted_time := hhmm hm, formatted_date := env.localDate timestamp }) }
            , 1 )
      else (_get_fallback_time env city, 1)

/-- Lines 54-61 then 63-96 of time_service.py: the branch taken when the
geocoding call yields no zone — the zone comes from `FALLBACK_TIMEZONES` (then
the live endpoint is still queried), or the unknown-city error is returned. -/
def time_from_table_zone (env : TimeEnv) (city : String) : LookupResult × Nat :=
  match FALLBACK_TIMEZONES.lookup (normalize city) with
  | some zone_name => fetch_time_by_zone env city zone_name
  | none =>
      ( { status := .error, report := none, errorMessage := some (tzUnknownMsg city), data := none }
      , 0 )

/-- `TimeService.get_current_time` (time_service.py lines 30-103).  The second
component is the number of GETs issued to the live get-time-by-zone endpoint.
A `KeyError` on `timezone_data[\x7bzoneName\x7d]` (line 52) would be caught at
line 101 and land in `_get_fallback_time`. -/
def get_current_time (env : TimeEnv) (city : String) : LookupResult × Nat :=
  if !(truthy env.cfg.TIMEZONEDB_API_KEY) then
    (_get_fallback_time env city, 0)
  else
    match _get_timezone_from_api city with
    | some timezone_data =>
        if timezone_data.status == some "OK" then
          match timezone_data.zoneName with
          | some zone_name => fetch_time_by_zone env city zone_name
          | none => (_get_fallback_time env city, 0)
        else time_from_table_zone env city
    | none => time_from_table_zone env city

end TimeService

namespace WeatherService

/-- One element of the `weather` array of a live response, restricted to the
field the code reads. -/
structure WeatherCond where
  description : Option String
  deriving DecidableEq

/-- A live weather JSON body as observed through the fields read at
weather_service.py lines 45-51; `none` stands for a missing key, whose lookup
raises `KeyError`.  The nested paths `sys.country`, `main.temp`,
`main.humidity`, `wind.speed`, `main.pressure` are flattened: a `KeyError` at
either level is observably the same. -/
structure WeatherJson where
  name : Option String
  sys_country : Option String
  main_temp : Option Int
  weather : Option (List WeatherCond)
  main_humidity : Option Int
  wind_speed : Option Int
  main_pressure : Option Int
  deriving DecidableEq

/-- A live current-weather response: a `requests` exception (connection
error, timeout, HTTP error status) or a JSON body. -/
inductive WeatherResp where
  | netError
  | body (j : WeatherJson)

/-- The machine environment of `WeatherService`: configuration and the live
current-weather endpoint keyed by the queried city string. -/
structure WeatherEnv where
  cfg : Config
  response : String → WeatherResp

/-- The exceptions `get_weather` can leak: its handlers catch
`RequestException`, `KeyError` and `ValueError` only, so the `IndexError`
raised by `data[\x22weather\x22][0]` on an empty array propagates. -/
inductive PyErr where
  | indexError
  deriving DecidableEq

/-- The field extraction of weather_service.py lines 43-52, in source order:
the first missing key raises `KeyError`; an empty `weather` array raises
`IndexError` at `data[\x22weather\x22][0]`. -/
inductive ExtractOutcome where
  | ok (info : WeatherInfo)
  | keyError
  | indexError
  deriving DecidableEq

/-- Extraction of `weather_info` from a parsed body (lines 43-52). -/
def extract_weather_info (data : WeatherJson) : ExtractOutcome :=
  match data.name with
  | none => .keyError
  | some nm =>
  match data.sys_country with
  | none => .keyError
  | some country =>
  match data.main_temp with
  | none => .keyError
  | some temp =>
  match data.weather with
  | none => .keyError
  | some [] => .indexError
  | some (w0 :: _) =>
  match w0.description with
  | none => .keyError
  | some desc =>
  match data.main_humidity with
  | none => .keyError
  | some humidity =>
  match data.wind_speed with
  | none => .keyError
  | some wind =>
  match data.main_pressure with
  | none => .keyError
  | some pressure =>
    .ok { status := "success", city := nm, country := country, temperature := temp
        , description := capitalize desc, humidity := humidity
        , wind_speed := wind, pressure := pressure }

/-- The live report template of weather_service.py lines 54-59 (the committed
file has U+C9F8 where a degree sign was evidently intended). -/
def weather_report (i : WeatherInfo) : String :=
  "The weather in " ++ i.city ++ ", " ++ i.country ++ " is " ++ i.description
    ++ " with a temperature of " ++ toString i.temperature ++ "째F. Humidity: "
    ++ toString i.humidity ++ "%, Wind: " ++ toString i.wind_speed
    ++ " mph, Pressure: " ++ toString i.pressure ++ " hPa."

/-- The unknown-city error text of weather_service.py line 105. -/
def weatherUnknownMsg (city : String) : String :=
  "Sorry, I don\x27t have weather information for \x27" ++ city ++ "\x27."

/-- The `mock_weather` dict of weather_service.py lines 85-98: each entry
carries only `status` and `report` (no `data`, no `error_message`). -/
def mock_weather : List (String × LookupResult) :=
  [ ("newyork",
      { status := .success
      , report := some "The weather in New York is sunny with a temperature of 45째F."
      , errorMessage := none, data := none })
  , ("london",
      { status := .success
      , report := some "It\x27s cloudy in London with a temperature of 55째F."
      , errorMessage := none, data := none })
  , ("tokyo",
      { status := .success
      , report := some "Tokyo is experiencing light rain and a temperature of 72째F."
      , errorMessage := none, data := none }) ]

/-- `WeatherService._get_mock_weather` (weather_service.py lines 80-106). -/
def _get_mock_weather (city : String) : LookupResult :=
  match mock_weather.lookup (normalize city) with
  | some r => r
  | none =>
      { status := .error, report := none, errorMessage := some (weatherUnknownMsg city), data := none }

/-- `WeatherService.get_weather` (weather_service.py lines 15-78).
`Except.error .indexError` is the one uncaught exception the body can raise;
every other path returns a result dict. -/
def get_weather (env : WeatherEnv) (city : String) : Except PyErr LookupResult :=
  if !(truthy env.cfg.OPENWEATHER_API_KEY) then
    .ok (_get_mock_weather city)
  else
    match env.response city with
    | .netError =>
        .ok { status := .error, report := none
            , errorMessage := some ("Unable to fetch weather data for \x27" ++ city
                ++ "\x27. Please check the city name and try again.")
            , data := none }
    | .body data =>
        match extract_weather_info data with
        | .ok info =>
            .ok { status := .success, report := some (weather_report info)
                , errorMessage := none, data := some (.weatherLive info) }
        | .keyError =>
            .ok { status := .error, report := none
                , errorMessage := some ("Received invalid weather data for \x27" ++ city ++ "\x27.")
                , data := none }
        | .indexError => .error .indexError

end WeatherService

/-! Concrete configurations and environments used to instantiate theorems. -/

/-- No environment variable set at all. -/
def cfgNone : Config :=
  { GOOGLE_API_KEY := none, GOOGLE_MAPS_PLATFORM_API_KEY := none, OPIK_API_KEY := none
  , OPIK_WORKSPACE := none, OPENWEATHER_API_KEY := none, TIMEZONEDB_API_KEY := none }

/-- Only the live-time credential set. -/
def cfgTimeKey : Config := { cfgNone with TIMEZONEDB_API_KEY := some "k" }

/-- Only the live-weather credential set. -/
def cfgWeatherKey : Config := { cfgNone with OPENWEATHER_API_KEY := some "k" }

/-- The four required settings present, both live-data credentials absent. -/
def cfgFour : Config :=
  { GOOGLE_API_KEY := some "g", GOOGLE_MAPS_PLATFORM_API_KEY := some "m"
  , OPIK_API_KEY := some "o", OPIK_WORKSPACE := some "w"
  , OPENWEATHER_API_KEY := none, TIMEZONEDB_API_KEY := none }

/-- Credential-less time environment whose clock reads 07:05 everywhere. -/
def tenvA : TimeService.TimeEnv :=
  { cfg := cfgNone, byZone := fun _ => .netError, nowInZone := fun _ => (7, 5)
  , localHM := fun _ => (0, 0), localDate := fun _ => "1970-01-01" }

/-- Credential-less time environment whose clock reads 23:59 everywhere. -/
def tenvB : TimeService.TimeEnv :=
  { cfg := cfgNone, byZone := fun _ => .netError, nowInZone := fun _ => (23, 59)
  , localHM := fun _ => (0, 0), localDate := fun _ => "1970-01-01" }

/-- Credential-less weather environment. -/
def wenvNoKey : WeatherService.WeatherEnv :=
  { cfg := cfgNone, response := fun _ => .netError }

/-- Live-time environment whose by-zone endpoint answers OK with timestamp 100
for Europe/London, rendered locally as 12:30 on 2026-10-12. -/
def envLiveTime : TimeService.TimeEnv :=
  { cfg := cfgTimeKey
  , byZone := fun z => if z == "Europe/London" then .body (some "OK") (some 100) else .netError
  , nowInZone := fun _ => (7, 45), localHM := fun _ => (12, 30)
  , localDate := fun _ => "2026-10-12" }

/-- Live-time environment whose by-zone endpoint always fails with a network
error. -/
def envTimeNetFail : TimeService.TimeEnv :=
  { cfg := cfgTimeKey, byZone := fun _ => .netError, nowInZone := fun _ => (7, 45)
  , localHM := fun _ => (0, 0), localDate := fun _ => "1970-01-01" }

/-- Live-weather environment whose endpoint always fails with a network
error (for example a timeout). -/
def envWeatherNetFail : WeatherService.WeatherEnv :=
  { cfg := cfgWeatherKey, response := fun _ => .netError }

/-- A live weather body whose `weather` key holds an empty array while every
other read field is present and well-formed. -/
def jEmptyWeatherArr : WeatherService.WeatherJson :=
  { name := some "Paris", sys_country := some "FR", main_temp := some 60
  , weather := some [], main_humidity := some 50, wind_speed := some 5
  , main_pressure := some 1013 }

/-- Live-weather environment always answering with `jEmptyWeatherArr`. -/
def envWeatherEmptyArr : WeatherService.WeatherEnv :=
  { cfg := cfgWeatherKey, response := fun _ => .body jEmptyWeatherArr }

/-! The populated-field invariant and lemmas covering each return site. -/

/-- Exactly one of the `report` / `error_message` keys is present, as dictated
by `status`. -/
def ExactlyOne (r : LookupResult) : Prop :=
  (r.status = .success ↔ r.report.isSome = true) ∧
  (r.status = .error ↔ r.errorMessage.isSome = true)

lemma exactlyOne_fallback (env : TimeService.TimeEnv) (city : String) :
    ExactlyOne (TimeService._get_fallback_time env city) := by
  unfold TimeService._get_fallback_time
  dsimp only
  split <;> simp [ExactlyOne]

lemma exactlyOne_fetch (env : TimeService.TimeEnv) (city z : String) :
    ExactlyOne (TimeService.fetch_time_by_zone env city z).1 := by
  unfold TimeService.fetch_time_by_zone
  split
  · exact exactlyOne_fallback env city
  · split
    · split
      · exact exactlyOne_fallback env city
      · simp [ExactlyOne]
    · exact exactlyOne_fallback env city

lemma exactlyOne_table_zone (env : TimeService.TimeEnv) (city : String) :
    ExactlyOne (TimeService.time_from_table_zone env city).1 := by
  unfold TimeService.time_from_table_zone
  split
  · exact exactlyOne_fetch env city _
  · simp [ExactlyOne]

lemma exactlyOne_time (env : TimeService.TimeEnv) (city : String) :
    ExactlyOne (TimeService.get_current_time env city).1 := by
  unfold TimeService.get_current_time
  split
  · exact exactlyOne_fallback env city
  · simp only [TimeService._get_timezone_from_api]
    exact exactlyOne_table_zone env city

lemma exactlyOne_mock (city : String) :
    ExactlyOne (WeatherService._get_mock_weather city) := by
  unfold WeatherService._get_mock_weather WeatherService.mock_weather
  simp only [List.lookup]
  split
  next r heq =>
    repeat' split at heq
    all_goals first
      | (injection heq with h2; subst h2; simp [ExactlyOne])
      | cases heq
  next => simp [ExactlyOne]

/-- C2: every result either resolver returns populates exactly one of the
`report` / `error_message` keys — `report` present iff `status` is success,
`error_message` present iff `status` is error (the one non-returning weather
path, the uncaught `IndexError`, yields no result at all). -/
theorem C2_exactly_one_populated (tenv : TimeService.TimeEnv)
    (wenv : WeatherService.WeatherEnv) (city : String) :
    ExactlyOne (TimeService.get_current_time tenv city).1 ∧
    (match WeatherService.get_weather wenv city with
     | .ok r => ExactlyOne r
     | .error _ => True) := by
  refine ⟨exactlyOne_time tenv city, ?_⟩
  have h : ∀ r, WeatherService.get_weather wenv city = .ok r → ExactlyOne r := by
    intro r hr
    unfold WeatherService.get_weather at hr
    split at hr
    · injection hr with h2
      subst h2
      exact exactlyOne_mock city
    · split at hr
      · injection hr with h2
        subst h2
        simp [ExactlyOne]
      · split at hr
        · injection hr with h2
          subst h2
          simp [ExactlyOne]
        · injection hr with h2
          subst h2
          simp [ExactlyOne]
        · cases hr
  cases hw : WeatherService.get_weather wenv city with
  | ok r => exact h r hw
  | error e => trivial

lemma pad2_length_two (n : Nat) (h : n < 100) : (pad2 n).length = 2 := by
  interval_cases n <;> decide

lemma get_current_time_no_key (env : TimeService.TimeEnv) (city : String)
    (hkey : truthy env.cfg.TIMEZONEDB_API_KEY = false) :
    TimeService.get_current_time env city = (TimeService._get_fallback_time env city, 0) := by
  unfold TimeService.get_current_time
  simp [hkey]

lemma fallback_found (env : TimeService.TimeEnv) (city zone : String)
    (hzone : TimeService.FALLBACK_TIMEZONES.lookup (normalize city) = some zone) :
    TimeService._get_fallback_time env city =
      { status := .success
      , report := some ("The current time in " ++ city ++ " is " ++ hhmm (env.nowInZone zone) ++ ".")
      , errorMessage := none
      , data := some (.timeFallback
          { city := city, timezone := zone, formatted_time := hhmm (env.nowInZone zone) }) } := by
  unfold TimeService._get_fallback_time
  dsimp only
  rw [hzone]

lemma fallback_not_found (env : TimeService.TimeEnv) (city : String)
    (hnone : TimeService.FALLBACK_TIMEZONES.lookup (normalize city) = none) :
    TimeService._get_fallback_time env city =
      { status := .error, report := none
      , errorMessage := some (TimeService.tzUnknownMsg city), data := none } := by
  unfold TimeService._get_fallback_time
  dsimp only
  rw [hnone]

/-- C3: with no live-time credential, a city whose normalized key is in the
ten-entry fallback table resolves to a success whose report is
"The current time in {city} is HH:MM." with two zero-padded clock fields. -/
theorem C3_fallback_table_success (env : TimeService.TimeEnv) (city zone : String)
    (h m : Nat)
    (hkey : truthy env.cfg.TIMEZONEDB_API_KEY = false)
    (hzone : TimeService.FALLBACK_TIMEZONES.lookup (normalize city) = some zone)
    (hnow : env.nowInZone zone = (h, m))
    (hh : h < 24) (hm2 : m < 60) :
    (TimeService.get_current_time env city).1.status = .success ∧
    (TimeService.get_current_time env city).1.report =
      some ("The current time in " ++ city ++ " is " ++ (pad2 h ++ ":" ++ pad2 m) ++ ".") ∧
    (pad2 h).length = 2 ∧ (pad2 m).length = 2 := by
  rw [get_current_time_no_key env city hkey]
  rw [show (TimeService._get_fallback_time env city, 0).1 = TimeService._get_fallback_time env city from rfl]
  rw [fallback_found env city zone hzone]
  refine ⟨rfl, ?_, pad2_length_two h (by omega), pad2_length_two m (by omega)⟩
  simp [hhmm, hnow]

/-- C3 witness at city "New York" in a credential-less environment whose New
York clock reads 07:05. -/
theorem C3_witness :
    (TimeService.get_current_time tenvA "New York").1.status = .success ∧
    (TimeService.get_current_time tenvA "New York").1.report =
      some "The current time in New York is 07:05." := by
  have h := C3_fallback_table_success tenvA "New York" "America/New_York" 7 5
    (by decide) (by decide) rfl (by decide) (by decide)
  refine ⟨h.1, ?_⟩
  rw [h.2.1]
  rfl

/-- C4: with no live-time credential, a city whose normalized key is not in
the fallback table resolves to an error carrying exactly the unknown-timezone
message with the original city string interpolated. -/
theorem C4_fallback_unknown_city (env : TimeService.TimeEnv) (city : String)
    (hkey : truthy env.cfg.TIMEZONEDB_API_KEY = false)
    (hnone : TimeService.FALLBACK_TIMEZONES.lookup (normalize city) = none) :
    (TimeService.get_current_time env city).1 =
      { status := .error, report := none
      , errorMessage :=
          some ("Sorry, I don\x27t have timezone information for \x27" ++ city ++ "\x27.")
      , data := none } := by
  rw [get_current_time_no_key env city hkey]
  rw [show (TimeService._get_fallback_time env city, 0).1 = TimeService._get_fallback_time env city from rfl]
  rw [fallback_not_found env city hnone]
  rfl

/-- C4 witness at the unknown city "Atlantis". -/
theorem C4_witness :
    (TimeService.get_current_time tenvA "Atlantis").1 =
      { status := .error, report := none
      , errorMessage := some "Sorry, I don\x27t have timezone information for \x27Atlantis\x27."
      , data := none } := by
  rw [C4_fallback_unknown_city tenvA "Atlantis" (by decide) (by decide)]
  decide

lemma get_weather_no_key (env : WeatherService.WeatherEnv) (city : String)
    (hkey : truthy env.cfg.OPENWEATHER_API_KEY = false) :
    WeatherService.get_weather env city = .ok (WeatherService._get_mock_weather city) := by
  unfold WeatherService.get_weather
  simp [hkey]

/-- C5 counterexample: the canned London sentence the code returns renders
the temperature unit with U+C9F8 (the mojibake committed in
weather_service.py line 92), which is not the degree-sign sentence the claim
states, so the report is not exactly "It's cloudy in London with a
temperature of 55°F.". -/
theorem C5_counterexample_mojibake_unit :
    WeatherService.get_weather wenvNoKey "London" =
      .ok { status := .success
          , report := some "It\x27s cloudy in London with a temperature of 55째F."
          , errorMessage := none, data := none } ∧
    ("It\x27s cloudy in London with a temperature of 55째F." : String) ≠
      "It\x27s cloudy in London with a temperature of 55°F." := by
  exact ⟨rfl, by decide⟩

/-- C5 (amended): with no live-weather credential, each of the three
normalized mock cities yields its exact canned sentence as committed
(U+C9F8 in place of the intended degree sign), and any other city yields an
error whose message interpolates the city. -/
theorem C5_amended_mock_table (env : WeatherService.WeatherEnv) (city : String)
    (hkey : truthy env.cfg.OPENWEATHER_API_KEY = false) :
    (normalize city = "newyork" →
      WeatherService.get_weather env city =
        .ok { status := .success
            , report := some "The weather in New York is sunny with a temperature of 45째F."
            , errorMessage := none, data := none }) ∧
    (normalize city = "london" →
      WeatherService.get_weather env city =
        .ok { status := .success
            , report := some "It\x27s cloudy in London with a temperature of 55째F."
            , errorMessage := none, data := none }) ∧
    (normalize city = "tokyo" →
      WeatherService.get_weather env city =
        .ok { status := .success
            , report := some "Tokyo is experiencing light rain and a temperature of 72째F."
            , errorMessage := none, data := none }) ∧
    (WeatherService.mock_weather.lookup (normalize city) = none →
      WeatherService.get_weather env city =
        .ok { status := .error, report := none
            , errorMessage :=
                some ("Sorry, I don\x27t have weather information for \x27" ++ city ++ "\x27.")
            , data := none }) := by
  rw [get_weather_no_key env city hkey]
  refine ⟨?_, ?_, ?_, ?_⟩ <;> intro hcity <;>
    unfold WeatherService._get_mock_weather <;> rw [hcity] <;> rfl

/-- C5 witness at city "New York" (exercising the normalisation of the space
and the capital letters) with no credential configured. -/
theorem C5_witness :
    WeatherService.get_weather wenvNoKey "New York" =
      .ok { status := .success
          , report := some "The weather in New York is sunny with a temperature of 45째F."
          , errorMessage := none, data := none } :=
  (C5_amended_mock_table wenvNoKey "New York" (by decide)).1 (by decide)

lemma mock_lookup_success (k : String) (r : LookupResult)
    (h : WeatherService.mock_weather.lookup k = some r) :
    r.status = .success ∧ r.data = none ∧ r.errorMessage = none := by
  unfold WeatherService.mock_weather at h
  simp only [List.lookup] at h
  repeat' split at h
  all_goals first
    | (injection h with h2; subst h2; exact ⟨rfl, rfl, rfl⟩)
    | cases h

/-- C9: in mock mode (no live-weather credential), a success result for a
mock-table city carries no `data` payload: only `status` and `report` are
present. -/
theorem C9_mock_success_without_data (env : WeatherService.WeatherEnv) (city : String)
    (hkey : truthy env.cfg.OPENWEATHER_API_KEY = false)
    (hsome : (WeatherService.mock_weather.lookup (normalize city)).isSome = true) :
    ∃ r, WeatherService.get_weather env city = .ok r ∧
      r.status = .success ∧ r.data = none ∧ r.errorMessage = none := by
  rw [get_weather_no_key env city hkey]
  cases hl : WeatherService.mock_weather.lookup (normalize city) with
  | none => rw [hl] at hsome; cases hsome
  | some r =>
      refine ⟨r, ?_, mock_lookup_success (normalize city) r hl⟩
      unfold WeatherService._get_mock_weather
      rw [hl]

/-- C9 witness at city "Tokyo" with no credential configured. -/
theorem C9_witness :
    ∃ r, WeatherService.get_weather wenvNoKey "Tokyo" = .ok r ∧
      r.status = .success ∧ r.data = none ∧ r.errorMessage = none :=
  C9_mock_success_without_data wenvNoKey "Tokyo" (by decide) (by decide)

/-- C10: `validate_config` lists exactly those of the four required settings
(GOOGLE_API_KEY, GOOGLE_MAPS_PLATFORM_API_KEY, OPIK_API_KEY, OPIK_WORKSPACE)
that are unset or empty; the live-data credentials are never listed, the UI
banner check is silent exactly when the list is empty, and a configuration
exists that passes the check while both resolvers run in fallback/mock
mode. -/
theorem C10_validate_config_scope :
    (∀ (c : Config) (name : String),
      name ∈ c.validate_config ↔
        ((name = "GOOGLE_API_KEY" ∧ truthy c.GOOGLE_API_KEY = false) ∨
         (name = "GOOGLE_MAPS_PLATFORM_API_KEY" ∧ truthy c.GOOGLE_MAPS_PLATFORM_API_KEY = false) ∨
         (name = "OPIK_API_KEY" ∧ truthy c.OPIK_API_KEY = false) ∨
         (name = "OPIK_WORKSPACE" ∧ truthy c.OPIK_WORKSPACE = false))) ∧
    (∀ c : Config, "OPENWEATHER_API_KEY" ∉ c.validate_config ∧
       "TIMEZONEDB_API_KEY" ∉ c.validate_config) ∧
    (∀ c : Config, check_configuration c = none ↔ c.validate_config = []) ∧
    (∃ c : Config, c.validate_config = [] ∧ check_configuration c = none ∧
       truthy c.OPENWEATHER_API_KEY = false ∧ truthy c.TIMEZONEDB_API_KEY = false) := by
  refine ⟨?_, ?_, ?_, ?_⟩
  · intro c name
    unfold Config.validate_config
    split_ifs with h1 h2 h3 h4 <;> simp_all
  · intro c
    unfold Config.validate_config
    split_ifs <;> constructor <;> decide
  · intro c
    unfold check_configuration
    dsimp only
    split
    next hemp => simp [List.isEmpty_iff] at hemp; simp [hemp]
    next hemp => simp [List.isEmpty_iff] at hemp; simp [hemp]
  · exact ⟨cfgFour, by decide, by decide, by decide, by decide⟩

/-- C8: with no credentials, both resolvers are deterministic modulo the
clock: across two runs (possibly at different clock readings) the weather
results are identical, the time results agree on `status` and
`error_message`, and the time report differs at most in its HH:MM field. -/
theorem C8_deterministic_modulo_clock (t1 t2 : TimeService.TimeEnv)
    (w1 w2 : WeatherService.WeatherEnv) (city : String)
    (h1 : truthy t1.cfg.TIMEZONEDB_API_KEY = false)
    (h2 : truthy t2.cfg.TIMEZONEDB_API_KEY = false)
    (h3 : truthy w1.cfg.OPENWEATHER_API_KEY = false)
    (h4 : truthy w2.cfg.OPENWEATHER_API_KEY = false) :
    WeatherService.get_weather w1 city = WeatherService.get_weather w2 city ∧
    (TimeService.get_current_time t1 city).1.status =
      (TimeService.get_current_time t2 city).1.status ∧
    (TimeService.get_current_time t1 city).1.errorMessage =
      (TimeService.get_current_time t2 city).1.errorMessage ∧
    (∀ zone, TimeService.FALLBACK_TIMEZONES.lookup (normalize city) = some zone →
      (TimeService.get_current_time t1 city).1.report =
        some ("The current time in " ++ city ++ " is " ++ hhmm (t1.nowInZone zone) ++ ".") ∧
      (TimeService.get_current_time t2 city).1.report =
        some ("The current time in " ++ city ++ " is " ++ hhmm (t2.nowInZone zone) ++ ".")) ∧
    (TimeService.FALLBACK_TIMEZONES.lookup (normalize city) = none →
      (TimeService.get_current_time t1 city).1.report = none ∧
      (TimeService.get_current_time t2 city).1.report = none) := by
  rw [get_weather_no_key w1 city h3, get_weather_no_key w2 city h4,
      get_current_time_no_key t1 city h1, get_current_time_no_key t2 city h2]
  refine ⟨rfl, ?_, ?_, ?_, ?_⟩
  · cases hl : TimeService.FALLBACK_TIMEZONES.lookup (normalize city) with
    | some zone => rw [fallback_found t1 city zone hl, fallback_found t2 city zone hl]
    | none => rw [fallback_not_found t1 city hl, fallback_not_found t2 city hl]
  · cases hl : TimeService.FALLBACK_TIMEZONES.lookup (normalize city) with
    | some zone => rw [fallback_found t1 city zone hl, fallback_found t2 city zone hl]
    | none => rw [fallback_not_found t1 city hl, fallback_not_found t2 city hl]
  · intro zone hl
    rw [fallback_found t1 city zone hl, fallback_found t2 city zone hl]
    exact ⟨rfl, rfl⟩
  · intro hl
    rw [fallback_not_found t1 city hl, fallback_not_found t2 city hl]
    exact ⟨rfl, rfl⟩

/-- C8 witness: two credential-less runs for "Moscow" whose clocks read 07:05
and 23:59 agree on status while the reports differ only in the HH:MM field. -/
theorem C8_witness :
    (TimeService.get_current_time tenvA "Moscow").1.status =
      (TimeService.get_current_time tenvB "Moscow").1.status ∧
    (TimeService.get_current_time tenvA "Moscow").1.report =
      some "The current time in Moscow is 07:05." ∧
    (TimeService.get_current_time tenvB "Moscow").1.report =
      some "The current time in Moscow is 23:59." := by
  have h := C8_deterministic_modulo_clock tenvA tenvB wenvNoKey wenvNoKey "Moscow"
    (by decide) (by decide) (by decide) (by decide)
  have hr := h.2.2.2.1 "Europe/Moscow" (by decide)
  exact ⟨h.2.1, by rw [hr.1]; rfl, by rw [hr.2]; rfl⟩

lemma get_current_time_with_key (env : TimeService.TimeEnv) (city : String)
    (hkey : truthy env.cfg.TIMEZONEDB_API_KEY = true) :
    TimeService.get_current_time env city = TimeService.time_from_table_zone env city := by
  unfold TimeService.get_current_time
  simp [hkey, TimeService._get_timezone_from_api]

lemma table_zone_found (env : TimeService.TimeEnv) (city zone : String)
    (hzone : TimeService.FALLBACK_TIMEZONES.lookup (normalize city) = some zone) :
    TimeService.time_from_table_zone env city = TimeService.fetch_time_by_zone env city zone := by
  unfold TimeService.time_from_table_zone
  rw [hzone]

/-- C7: with a live-time credential and a table city, every failure of the
live by-zone call — a network or timeout error, a response missing the
`timestamp` field, or a non-OK status — is absorbed into the fallback path,
whose result is returned; no such error escapes `get_current_time`, whose
return type in this embedding is a total result (never an exception). -/
theorem C7_live_errors_fall_back (env : TimeService.TimeEnv) (city zone : String)
    (hkey : truthy env.cfg.TIMEZONEDB_API_KEY = true)
    (hzone : TimeService.FALLBACK_TIMEZONES.lookup (normalize city) = some zone) :
    (env.byZone zone = .netError →
      (TimeService.get_current_time env city).1 = TimeService._get_fallback_time env city) ∧
    (env.byZone zone = .body (some "OK") none →
      (TimeService.get_current_time env city).1 = TimeService._get_fallback_time env city) ∧
    (∀ st ts, env.byZone zone = .body st ts → (st == some "OK") = false →
      (TimeService.get_current_time env city).1 = TimeService._get_fallback_time env city) := by
  rw [get_current_time_with_key env city hkey, table_zone_found env city zone hzone]
  unfold TimeService.fetch_time_by_zone
  refine ⟨?_, ?_, ?_⟩
  · intro hb
    rw [hb]
  · intro hb
    rw [hb]
    rfl
  · intro st ts hb hst
    rw [hb]
    simp [hst]

/-- C7 witness: a network failure of the live call for "London" lands in the
fallback result. -/
theorem C7_witness :
    (TimeService.get_current_time envTimeNetFail "London").1 =
      TimeService._get_fallback_time envTimeNetFail "London" :=
  (C7_live_errors_fall_back envTimeNetFail "London" "Europe/London"
    (by decide) (by decide)).1 rfl

/-- C1 counterexample: with a live-time credential configured and the city
"London" (whose key is in the fallback table), `get_current_time` issues one
GET to the live time-by-zone endpoint and, the endpoint answering OK, returns
the long date-bearing report — not the credential-less short fallback report
the claim describes, and not zero live calls. -/
theorem C1_counterexample_live_call_made :
    (TimeService.get_current_time envLiveTime "London").2 = 1 ∧
    (TimeService.get_current_time envLiveTime "London").1.report =
      some "The current time in London (Europe/London) is 12:30 on 2026-10-12." ∧
    (TimeService.get_current_time envLiveTime "London").1 ≠
      TimeService._get_fallback_time envLiveTime "London" := by
  exact ⟨rfl, rfl, by decide⟩

/-- C1 (amended): with a live-time credential configured and the city's
normalized key in the fallback table, the geocoding stub yields no zone, the
zone is taken from the table, and exactly one call to the live time-by-zone
endpoint is made with it; if that call returns status OK with a timestamp the
long report "The current time in {city} ({zone}) is HH:MM on YYYY-MM-DD." is
returned with a data payload, and on a network error, a missing timestamp, or
a non-OK status the table-zone fallback short report is computed locally. -/
theorem C1_amended_live_call_with_table_zone (env : TimeService.TimeEnv)
    (city zone : String)
    (hkey : truthy env.cfg.TIMEZONEDB_API_KEY = true)
    (hzone : TimeService.FALLBACK_TIMEZONES.lookup (normalize city) = some zone) :
    (TimeService.get_current_time env city).2 = 1 ∧
    (∀ t, env.byZone zone = .body (some "OK") (some t) →
      (TimeService.get_current_time env city).1 =
        { status := .success
        , report := some ("The current time in " ++ city ++ " (" ++ zone ++ ") is "
            ++ hhmm (env.localHM t) ++ " on " ++ env.localDate t ++ ".")
        , errorMessage := none
        , data := some (.timeLive
            { city := city, timezone := zone, timestamp := t
            , formatted_time := hhmm (env.localHM t)
            , formatted_date := env.localDate t }) }) ∧
    (env.byZone zone = .netError →
      (TimeService.get_current_time env city).1 = TimeService._get_fallback_time env city) ∧
    (∀ st ts, env.byZone zone = .body st ts → ((st == some "OK") = false ∨ ts = none) →
      (TimeService.get_current_time env city).1 = TimeService._get_fallback_time env city) := by
  rw [get_current_time_with_key env city hkey, table_zone_found env city zone hzone]
  unfold TimeService.fetch_time_by_zone
  refine ⟨?_, ?_, ?_, ?_⟩
  · cases hb : env.byZone zone with
    | netError => rfl
    | body st ts =>
        cases hst : (st == some "OK") with
        | false => simp [hst]
        | true => cases ts <;> simp [hst]
  · intro t hb
    rw [hb]
    rfl
  · intro hb
    rw [hb]
  · intro st ts hb hcase
    rw [hb]
    rcases hcase with hst | hts
    · simp [hst]
    · subst hts
      cases hst : (st == some "OK") <;> simp [hst]

/-- C1 witness for the amended claim: in the concrete live environment the
by-zone endpoint is called exactly once. -/
theorem C1_amended_witness :
    (TimeService.get_current_time envLiveTime "London").2 = 1 :=
  (C1_amended_live_call_with_table_zone envLiveTime "London" "Europe/London"
    (by decide) (by decide)).1

/-- C6 counterexample: a received response whose `weather` key holds an empty
array — every other field present — is a malformed-fields response, yet with
the live credential configured `get_weather` does not return the
"Received invalid weather data" error result: the indexing
`data["weather"][0]` raises `IndexError`, which the handlers (catching only
`RequestException`, `KeyError`, `ValueError`) let propagate. -/
theorem C6_counterexample_empty_weather_array :
    WeatherService.get_weather envWeatherEmptyArr "Paris" = .error .indexError ∧
    WeatherService.get_weather envWeatherEmptyArr "Paris" ≠
      .ok { status := .error, report := none
          , errorMessage := some "Received invalid weather data for \x27Paris\x27."
          , data := none } := by
  refine ⟨rfl, ?_⟩
  intro h
  rw [show WeatherService.get_weather envWeatherEmptyArr "Paris" =
        .error .indexError from rfl] at h
  cases h

/-- C6 (amended): with a live-weather credential, a network error (including
a timeout) yields exactly the "Unable to fetch weather data" error result,
and a received response with a missing field at any of the read keys
(a `KeyError`) yields exactly the "Received invalid weather data" error
result; a received response whose `weather` array is empty instead raises an
uncaught `IndexError`. -/
theorem C6_amended_live_error_handling (env : WeatherService.WeatherEnv) (city : String)
    (hkey : truthy env.cfg.OPENWEATHER_API_KEY = true) :
    (env.response city = .netError →
      WeatherService.get_weather env city =
        .ok { status := .error, report := none
            , errorMessage := some ("Unable to fetch weather data for \x27" ++ city
                ++ "\x27. Please check the city name and try again.")
            , data := none }) ∧
    (∀ j, env.response city = .body j →
      WeatherService.extract_weather_info j = .keyError →
      WeatherService.get_weather env city =
        .ok { status := .error, report := none
            , errorMessage := some ("Received invalid weather data for \x27" ++ city ++ "\x27.")
            , data := none }) ∧
    (∀ j, env.response city = .body j →
      WeatherService.extract_weather_info j = .indexError →
      WeatherService.get_weather env city = .error .indexError) := by
  unfold WeatherService.get_weather
  simp only [hkey, Bool.not_true, Bool.false_eq_true, if_false]
  refine ⟨?_, ?_, ?_⟩
  · intro hb
    rw [hb]
  · intro j hb hx
    rw [hb]
    dsimp only
    rw [hx]
  · intro j hb hx
    rw [hb]
    dsimp only
    rw [hx]

/-- C6 witness: a simulated network timeout on the live weather call returns
the fixed "Unable to fetch weather data" error result rather than raising. -/
theorem C6_witness :
    WeatherService.get_weather envWeatherNetFail "Oslo" =
      .ok { status := .error, report := none
          , errorMessage :=
              some "Unable to fetch weather data for \x27Oslo\x27. Please check the city name and try again."
          , data := none } := by
  have h := (C6_amended_live_error_handling envWeatherNetFail "Oslo" (by decide)).1 rfl
  rw [h]
  rfl

end WeatherAgent
